import Mathlib

/-!
Verification of the throttled normalization cache of the NBA live dashboard
server (src/index.js, with the earlier variants src/unnamed/part_000 and
src/unnamed/part_001).  The JavaScript handlers are shallowly embedded as pure
Lean functions over explicit state records; timestamps are naturals
(milliseconds), JavaScript null/undefined fields are Option, and the upstream
HTTP calls are parameters of type Except/EspnFetch so that each handler is a
total function of its inputs.
-/

namespace NbaDash

/-- Constant CACHE_MS from src/index.js line 14. -/
def CACHE_MS : Nat := 30000

/-- Constant WINDOW_MS from src/index.js line 15. -/
def WINDOW_MS : Nat := 45000

/-- JavaScript string trim, on the character list: whitespace removed from
both ends. -/
def trimChars (l : List Char) : List Char :=
  ((l.dropWhile Char.isWhitespace).reverse.dropWhile Char.isWhitespace).reverse

/-- Characters kept by the regex replace in normTeam: lowercase letters,
digits and the space. -/
def normKeep (c : Char) : Bool :=
  (97 ≤ c.toNat && c.toNat ≤ 122) || (48 ≤ c.toNat && c.toNat ≤ 57) || c = ' '

/-- normTeam from src/index.js lines 46-48:
String(s or "").toLowerCase().replace(nonAlnumSpace, "").trim().
The JavaScript undefined/null argument is passed here as "". -/
def normTeam (s : String) : String :=
  String.mk (trimChars ((s.data.map Char.toLower).filter normKeep))

/-! ## Odds throttle (src/index.js lines 17-44 and 154-223)

The cache object fields used by the odds path, with the rows payload kept as a
type parameter: the claims about the throttle never inspect row contents. -/

structure OddsCache (α : Type) where
  odds : Option α
  oddsTs : Nat
  live : Bool
  bookmaker : String
  windowStart : Nat
  windowUsed : Bool
deriving DecidableEq

/-- The initial cache value from src/index.js lines 17-31. -/
def oddsCache0 (α : Type) : OddsCache α :=
  { odds := none, oddsTs := 0, live := true, bookmaker := "draftkings",
    windowStart := 0, windowUsed := false }

/-- withinWindow from src/index.js lines 37-44: reset the window when unset
(0 is falsy) or older than WINDOW_MS, then report the used flag.  Nat
subtraction agrees with the JavaScript comparison also when now is smaller
than windowStart (a negative difference is not greater than WINDOW_MS). -/
def withinWindow {α : Type} (c : OddsCache α) (now : Nat) : OddsCache α × Bool :=
  if c.windowStart = 0 ∨ WINDOW_MS < now - c.windowStart then
    ({ c with windowStart := now, windowUsed := false }, false)
  else (c, c.windowUsed)

/-- Response of the odds handler: 200 with rows, or the 422 upstream-error
body.  The 500 catch-all branch is unreachable in the embedding because every
embedded step is total. -/
inductive OddsResponse (α : Type) where
  | ok (rows : α)
  | err422 (detail : String)
deriving DecidableEq

/-- The fetch section of the odds handler, src/index.js lines 170-219: on a
non-2xx upstream reply the handler returns 422 at line 181 WITHOUT touching
the cache or the window flag; on success it stores the rows and sets
windowUsed at lines 213-217.  The Bool records that an upstream fetch was
dispatched. -/
def oddsFetch {α : Type} (c : OddsCache α) (now : Nat) (live : Bool)
    (bk : String) (upstream : Except String α) :
    OddsCache α × OddsResponse α × Bool :=
  match upstream with
  | .error detail => (c, .err422 detail, true)
  | .ok rows =>
      ({ c with odds := some rows, oddsTs := now, live := live,
                bookmaker := bk, windowUsed := true },
       .ok rows, true)

/-- The GET /api/odds handler, src/index.js lines 154-223, as a function of
the incoming query, the current time and the upstream outcome.  Branches in
source order: TTL-fresh fingerprint-matching cache serve (lines 160-167),
stale serve when the window is used and something is cached (line 168), else
fetch.  When nothing is cached the handler fetches even if the window is
used, exactly as the line 168 truthiness test does. -/
def handleOdds {α : Type} (c : OddsCache α) (now : Nat) (live : Bool)
    (bk : String) (upstream : Except String α) :
    OddsCache α × OddsResponse α × Bool :=
  let c1 := (withinWindow c now).1
  let used := (withinWindow c now).2
  match c1.odds with
  | some rows =>
      if now - c1.oddsTs < CACHE_MS ∧ c1.live = live ∧ c1.bookmaker = bk then
        (c1, .ok rows, false)
      else if used then (c1, .ok rows, false)
      else oddsFetch c1 now live bk upstream
  | none => oddsFetch c1 now live bk upstream

/-! ## History recorder (src/index.js lines 33 and 203-211, 280-293) -/

structure HistoryPoint where
  ts : Nat
  y : Int
deriving DecidableEq

/-- One append of the history loop body, src/index.js lines 206-209:
arr.push(point); if (arr.length > 2000) arr.shift(). -/
def pushPoint (arr : List HistoryPoint) (p : HistoryPoint) : List HistoryPoint :=
  let arr2 := arr ++ [p]
  if 2000 < arr2.length then arr2.tail else arr2

/-- The series obtained for one entity after a sequence of appends, starting
from the empty array created at src/index.js line 206. -/
def runHistory (ops : List HistoryPoint) : List HistoryPoint :=
  ops.foldl pushPoint []

/-- The day filter of GET /api/history, src/index.js line 289:
keep points with start ≤ ts < stop. -/
def historyFilter (start stop : Nat) (arr : List HistoryPoint) : List HistoryPoint :=
  arr.filter (fun p => decide (start ≤ p.ts ∧ p.ts < stop))

/-! ## Scores normalization (src/index.js lines 50-66 and 226-277) -/

/-- One element of the raw scores array of a game.  score is the
Number(s.score) coercion, kept only when finite (line 58), so none stands for
a missing or non-numeric score. -/
structure ScoreEntry where
  name : Option String
  score : Option Int
deriving DecidableEq

/-- A raw game of the primary scores feed as read by the handler.
commence_ms is the new Date(g.commence_time).getTime() value when
g.commence_time is truthy, and completed is the Boolean coercion
of g.completed. -/
structure RawScoreGame where
  id : Option String
  home_team : Option String
  away_team : Option String
  scores : Option (List ScoreEntry)
  commence_ms : Option Nat
  completed : Bool
deriving DecidableEq

/-- extractTeamTotals from src/index.js lines 50-66: build a Map from
normalized entry name to the finite numeric score (later entries overwrite,
modeled by prepending and first-match lookup), then look up the normalized
home and away team names.  Anything unmatched stays null. -/
def extractTeamTotals (g : RawScoreGame) : Option Int × Option Int :=
  match g.scores with
  | none => (none, none)
  | some entries =>
      let m := entries.foldl (fun m s =>
        match s.score with
        | some v => (normTeam (s.name.getD ""), v) :: m
        | none => m) ([] : List (String × Int))
      (m.lookup (normTeam (g.home_team.getD "")),
       m.lookup (normTeam (g.away_team.getD "")))

/-- The pre-tip test of src/index.js lines 247-248: a commence time exists
and now is strictly before it. -/
def beforeTip (g : RawScoreGame) (now : Nat) : Bool :=
  match g.commence_ms with
  | some t => decide (now < t)
  | none => false

/-- Period/clock value stored in the ESPN clock map. -/
structure ClockEntry where
  period : Option Int
  clock : Option String
deriving DecidableEq

/-- The merge key of src/index.js line 252: normalized away team, double
underscore, normalized home team. -/
def mergeKey (away home : Option String) : String :=
  normTeam (away.getD "") ++ "__" ++ normTeam (home.getD "")

/-- The output row shape of GET /api/scores, src/index.js lines 259-268. -/
structure ScoreRow where
  id : Option String
  home_team : Option String
  away_team : Option String
  home_score : Option Int
  away_score : Option Int
  period : Option Int
  clock : Option String
  completed : Bool
deriving DecidableEq

/-- One mapped row of GET /api/scores, src/index.js lines 245-268: extracted
scores, ESPN clock-map lookup by merge key, and the pre-tip guard which
nulls the four live fields but copies completed unconditionally from the raw
record (line 267). -/
def scoresRow (g : RawScoreGame) (espnMap : List (String × ClockEntry))
    (now : Nat) : ScoreRow :=
  let hs := (extractTeamTotals g).1
  let as := (extractTeamTotals g).2
  let bt := beforeTip g now
  let e := espnMap.lookup (mergeKey g.away_team g.home_team)
  let period := match e with | some ce => ce.period | none => none
  let clock := match e with | some ce => ce.clock | none => none
  { id := g.id, home_team := g.home_team, away_team := g.away_team,
    home_score := if bt then none else hs,
    away_score := if bt then none else as,
    period := if bt then none else period,
    clock := if bt then none else clock,
    completed := g.completed }

/-! ## ESPN clock adapter (src/index.js lines 69-115) -/

/-- Leftmost substring search on character lists: the needle occurs as a
contiguous run somewhere in the haystack. -/
def listInfix (needle : List Char) : List Char → Bool
  | [] => needle.isPrefixOf []
  | c :: rest => needle.isPrefixOf (c :: rest) || listInfix needle rest

/-- Case-insensitive substring test, the regex test used at src/index.js
lines 105-106; the pattern is already lowercase. -/
def containsInsens (hay : String) (needle : String) : Bool :=
  listInfix (needle.data.map Char.toLower) (hay.data.map Char.toLower)

/-- One raw ESPN event as read at src/index.js lines 88-99: home and away are
the display-name alternation results, period0 is Number(status.period)
coerced with 0 and NaN already turned into null by the or-null at line 97,
displayClock is the trimmed clock string turned into null when empty, and
state is the lowercased status.type.state. -/
structure EspnEvent where
  home : Option String
  away : Option String
  period0 : Option Int
  displayClock : Option String
  state : String
deriving DecidableEq

/-- The status canonicalization of src/index.js lines 103-109: the halftime
and final tests run on the raw clock string, and the entry is kept only when
the state is in or post or a period was resolved. -/
def espnCanon (period0 : Option Int) (displayClock : Option String)
    (state : String) : Option ClockEntry :=
  let clockS := displayClock.getD ""
  let p1 : Option Int × Option String :=
    if containsInsens clockS "half" then (some 3, some "12:00")
    else (period0, displayClock)
  let p2 : Option Int × Option String :=
    if containsInsens clockS "final" ∨ state = "post" then (some 4, some "0:00")
    else p1
  if state = "in" ∨ state = "post" ∨ p2.1.isSome then
    some { period := p2.1, clock := p2.2 }
  else none

/-- The map construction loop of src/index.js lines 86-110: normalize both
names, skip events with an empty side, canonicalize the status, and store
under the away-double-underscore-home key (Map.set overwrite modeled by
prepending with first-match lookup). -/
def espnBuild (events : List EspnEvent) : List (String × ClockEntry) :=
  events.foldl (fun out ev =>
    let home := normTeam (ev.home.getD "")
    let away := normTeam (ev.away.getD "")
    if home = "" ∨ away = "" then out
    else
      match espnCanon ev.period0 ev.displayClock ev.state with
      | some entry => (away ++ "__" ++ home, entry) :: out
      | none => out) []

/-- Outcome of the ESPN upstream call: failure collapses the transport error,
the non-2xx status and the json decode throw, all of which land in the same
catch block at src/index.js lines 79-84. -/
inductive EspnFetch where
  | failure
  | success (events : List EspnEvent)
deriving DecidableEq

/-- The scores-path cache fields of src/index.js lines 17-31. -/
structure ScoresState where
  scores : Option (List ScoreRow)
  scoresTs : Nat
  espn : Option (List (String × ClockEntry))
  espnTs : Nat
deriving DecidableEq

/-- getEspnClockMap from src/index.js lines 69-115: serve the cached map when
fresh (an empty cached map is truthy and is served), otherwise on failure
cache and return the empty map (lines 79-84), on success build, cache and
return the event map. -/
def getEspnClockMap (st : ScoresState) (now : Nat) (f : EspnFetch) :
    ScoresState × List (String × ClockEntry) :=
  let go : ScoresState × List (String × ClockEntry) :=
    match f with
    | .failure => ({ st with espn := some [], espnTs := now }, [])
    | .success events =>
        let out := espnBuild events
        ({ st with espn := some out, espnTs := now }, out)
  match st.espn with
  | some m => if now - st.espnTs < CACHE_MS then (st, m) else go
  | none => go

/-- Response of the scores handler. -/
inductive ScoresResponse where
  | ok (rows : List ScoreRow)
  | err422 (detail : String)
deriving DecidableEq

/-- The fetch section of GET /api/scores, src/index.js lines 233-273: 422 on
a non-2xx primary reply, otherwise build the ESPN map and map every raw game
through scoresRow, then cache. -/
def scoresFetch (st : ScoresState) (now : Nat)
    (upstream : Except String (List RawScoreGame)) (f : EspnFetch) :
    ScoresState × ScoresResponse :=
  match upstream with
  | .error d => (st, .err422 d)
  | .ok data =>
      let st1 := (getEspnClockMap st now f).1
      let espnMap := (getEspnClockMap st now f).2
      let out := data.map (fun g => scoresRow g espnMap now)
      ({ st1 with scores := some out, scoresTs := now }, .ok out)

/-- The GET /api/scores handler, src/index.js lines 226-277: TTL cache serve
at lines 229-231, else fetch. -/
def handleScores (st : ScoresState) (now : Nat)
    (upstream : Except String (List RawScoreGame)) (f : EspnFetch) :
    ScoresState × ScoresResponse :=
  match st.scores with
  | some rows =>
      if now - st.scoresTs < CACHE_MS then (st, .ok rows)
      else scoresFetch st now upstream f
  | none => scoresFetch st now upstream f

/-! ## Earlier variant src/unnamed/part_000: inline score extraction
(lines 118-131) and parsePeriodClock (lines 84-99) -/

/-- A JavaScript number produced by a Number(x) coercion: either NaN or an
integer value.  Number(null) is the integer 0. -/
inductive JNum where
  | nan
  | val (n : Int)
deriving DecidableEq

/-- A non-null element of the raw scores array in part_000; score is the
Number(s.score) coercion result.  Null array elements are skipped by the
continue at line 124 and are therefore not represented. -/
structure ScoreEntry0 where
  name : Option String
  score : JNum
deriving DecidableEq

/-- JavaScript truthiness of an optional string: the empty string is falsy. -/
def truthyStr (s : Option String) : Option String :=
  match s with
  | some t => if t.data.isEmpty then none else some t
  | none => none

/-- JavaScript a or-else b or-else null on strings. -/
def jsOr (a b : Option String) : Option String :=
  match truthyStr a with
  | some s => some s
  | none => truthyStr b

/-- A raw game of the scores feed as read by part_000 lines 118-131.
The home_score and away_score fields are the Number coercions of the raw
fields, present exactly when the raw field is not undefined; a raw null
field coerces to the value 0. -/
structure RawScoreGame0 where
  home_team : Option String
  away_team : Option String
  teams_home : Option String
  teams_away : Option String
  scores : Option (List ScoreEntry0)
  home_score_field : Option JNum
  away_score_field : Option JNum
deriving DecidableEq

/-- Lowercased character list of a string. -/
def lowerList (s : String) : List Char :=
  s.data.map Char.toLower

/-- The scores-array pass of part_000 lines 122-128: for every entry whose
truthy name contains (case-insensitively) the truthy team name, assign
Number(s.score); the last matching entry wins. -/
def arrayScores0 (g : RawScoreGame0) : Option JNum × Option JNum :=
  let homeName := jsOr g.home_team g.teams_home
  let awayName := jsOr g.away_team g.teams_away
  match g.scores with
  | none => (none, none)
  | some entries =>
      entries.foldl (fun acc s =>
        let acc1 : Option JNum × Option JNum :=
          match truthyStr s.name, homeName with
          | some nm, some hn =>
              if listInfix (lowerList hn) (lowerList nm) then (some s.score, acc.2)
              else acc
          | _, _ => acc
        match truthyStr s.name, awayName with
        | some nm, some an =>
            if listInfix (lowerList an) (lowerList nm) then (acc1.1, some s.score)
            else acc1
        | _, _ => acc1) ((none, none) : Option JNum × Option JNum)

/-- The full extraction of part_000 lines 121-130: the scores-array pass
first, then for each side, if it is still null and the explicit raw field is
not undefined, the Number coercion of the explicit field. -/
def extract0 (g : RawScoreGame0) : Option JNum × Option JNum :=
  let h := (arrayScores0 g).1
  let a := (arrayScores0 g).2
  (match h with
   | some x => some x
   | none => g.home_score_field,
   match a with
   | some x => some x
   | none => g.away_score_field)

/-! ### parsePeriodClock, part_000 lines 84-99

The four regexes are embedded as matchers on the lowercased character list;
every matcher below implements the leftmost-match search of
String.prototype.match by trying each suffix in order.  All captured text
(digits and the mm:ss clock) is case-invariant, so matching on the
lowercased list returns the same captures as the case-insensitive regexes
on the original string. -/

/-- Decimal value of a digit run. -/
def digitsVal (l : List Char) : Nat :=
  l.foldl (fun n c => 10 * n + (c.toNat - 48)) 0

/-- Whitespace skip for a regex backslash-s star. -/
def skipWs (l : List Char) : List Char :=
  l.dropWhile Char.isWhitespace

/-- Match the clock tail of a regex at the head of the list: one or two
digits, a colon, two digits, with the greedy two-digit alternative tried
first and one-digit backtracking.  Returns the captured clock text. -/
def clockAt (l : List Char) : Option (List Char) :=
  match l with
  | a :: b :: rest =>
      if a.isDigit then
        if b.isDigit then
          match rest with
          | ':' :: c :: d :: _ =>
              if c.isDigit && d.isDigit then some [a, b, ':', c, d]
              else none
          | _ =>
              match b :: rest with
              | ':' :: c :: d :: _ =>
                  if c.isDigit && d.isDigit then some [a, ':', c, d] else none
              | _ => none
        else
          match b :: rest with
          | ':' :: c :: d :: _ =>
              if c.isDigit && d.isDigit then some [a, ':', c, d] else none
          | _ => none
      else none
  | _ => none

/-- Leftmost-match search: try the position matcher at every suffix. -/
def searchA {β : Type} (f : List Char → Option β) : List Char → Option β
  | [] => f []
  | c :: rest =>
      match f (c :: rest) with
      | some r => some r
      | none => searchA f rest

/-- Position matcher for the quarter regex of part_000 line 86: one or more
digits, an ordinal suffix, a space, the word quarter, optional spaces, a
dash, optional spaces, and the clock.  Returns the period number and the
captured clock. -/
def quarterAt (l : List Char) : Option (Nat × List Char) :=
  let ds := l.takeWhile Char.isDigit
  let rest := l.dropWhile Char.isDigit
  if ds.isEmpty then none
  else if ["st".data, "nd".data, "rd".data, "th".data].any
      (fun s => s.isPrefixOf rest) then
    let r2 := rest.drop 2
    if (" quarter".data).isPrefixOf r2 then
      match skipWs (r2.drop 8) with
      | '-' :: r4 =>
          match clockAt (skipWs r4) with
          | some clk => some (digitsVal ds, clk)
          | none => none
      | _ => none
    else none
  else none

/-- Position matcher for the test regex End-of-space-digit of part_000
line 89. -/
def endOfTestAt (l : List Char) : Option Unit :=
  if ("end of ".data).isPrefixOf l then
    match l.drop 7 with
    | c :: _ => if c.isDigit then some () else none
    | [] => none
  else none

/-- Position matcher for the capture regex End-of-optional-spaces-digits of
part_000 line 90. -/
def endOfMatchAt (l : List Char) : Option Nat :=
  if ("end of".data).isPrefixOf l then
    let ds := (skipWs (l.drop 6)).takeWhile Char.isDigit
    if ds.isEmpty then none else some (digitsVal ds)
  else none

/-- Position matcher for the overtime regex of part_000 line 93: optional
digits, optional spaces, the letters ot, optional spaces, a dash, optional
spaces, and the clock.  The first component is the captured digit count,
none when the capture is empty. -/
def otAt (l : List Char) : Option (Option Nat × List Char) :=
  let ds := l.takeWhile Char.isDigit
  let r := skipWs (l.dropWhile Char.isDigit)
  if ("ot".data).isPrefixOf r then
    match skipWs (r.drop 2) with
    | '-' :: r3 =>
        match clockAt (skipWs r3) with
        | some clk => some ((if ds.isEmpty then none else some (digitsVal ds)), clk)
        | none => none
    | _ => none
  else none

/-- Result record of parsePeriodClock. -/
structure PC where
  period : Option Nat
  clock : Option String
deriving DecidableEq

/-- parsePeriodClock from part_000 lines 84-99, branch for branch: falsy
status short-circuits; then the quarter regex, the halftime substring test,
the End-of branch (whose inner match falls through when it fails), the
overtime regex with default 1, and the null fallback. -/
def parsePeriodClock (status : Option String) : PC :=
  match status with
  | none => { period := none, clock := none }
  | some st =>
      if st.data.isEmpty then { period := none, clock := none }
      else
        let l := lowerList st
        match searchA quarterAt l with
        | some pr => { period := some pr.1, clock := some (String.mk pr.2) }
        | none =>
            if listInfix ("halftime".data) l then
              { period := some 3, clock := some "12:00" }
            else
              let endBranch : Option PC :=
                if (searchA endOfTestAt l).isSome then
                  match searchA endOfMatchAt l with
                  | some n => some { period := some (n + 1), clock := some "12:00" }
                  | none => none
                else none
              match endBranch with
              | some pc => pc
              | none =>
                  match searchA otAt l with
                  | some oc =>
                      { period := some (4 + oc.1.getD 1),
                        clock := some (String.mk oc.2) }
                  | none => { period := none, clock := none }

/-! ## Helper lemmas about the odds throttle -/

/-- When the odds handler dispatches a fetch and the upstream call succeeds,
the resulting state is the window-adjusted cache with the new rows, the new
fingerprint and the window marked used, and the response is the rows. -/
theorem handleOdds_ok_fetch {α : Type} (c : OddsCache α) (now : Nat)
    (live : Bool) (bk : String) (rows : α)
    (hf : (handleOdds c now live bk (Except.ok rows)).2.2 = true) :
    handleOdds c now live bk (Except.ok rows) =
      ({ (withinWindow c now).1 with
          odds := some rows
          oddsTs := now
          live := live
          bookmaker := bk
          windowUsed := true },
       OddsResponse.ok rows, true) := by
  unfold handleOdds at hf ⊢
  cases hodds : ((withinWindow c now).1).odds with
  | none => simp only [hodds, oddsFetch]
  | some r0 =>
      simp only [hodds] at hf ⊢
      by_cases h1 : now - ((withinWindow c now).1).oddsTs < CACHE_MS ∧
          ((withinWindow c now).1).live = live ∧
          ((withinWindow c now).1).bookmaker = bk
      · simp [h1] at hf
      · cases h2 : (withinWindow c now).2 with
        | true => simp [h1, h2] at hf
        | false => simp only [h1, h2, if_false, if_neg, oddsFetch,
            Bool.false_eq_true, ite_false]

/-- When the window flag of the stored state is set, the window has not yet
expired and rows are cached, the odds handler serves the cached rows and
dispatches no fetch, whatever the requested parameters and whatever the
upstream would have answered. -/
theorem handleOdds_noFetch_of_used {α : Type} (c : OddsCache α) (now : Nat)
    (live : Bool) (bk : String) (u : Except String α) (rows : α)
    (hws : c.windowStart ≠ 0) (hin : now - c.windowStart ≤ WINDOW_MS)
    (hused : c.windowUsed = true) (hodds : c.odds = some rows) :
    handleOdds c now live bk u = (c, OddsResponse.ok rows, false) := by
  have hcond : ¬(c.windowStart = 0 ∨ WINDOW_MS < now - c.windowStart) := by
    push_neg
    exact ⟨hws, by omega⟩
  unfold handleOdds withinWindow
  simp only [if_neg hcond, hodds]
  by_cases httl : now - c.oddsTs < CACHE_MS ∧ c.live = live ∧ c.bookmaker = bk
  · simp [httl]
  · simp [httl, hused]

/-- The window start produced by withinWindow is never 0 when now is
positive. -/
theorem withinWindow_start_ne_zero {α : Type} (c : OddsCache α) (now : Nat)
    (hn : 0 < now) : ((withinWindow c now).1).windowStart ≠ 0 := by
  unfold withinWindow
  by_cases h : c.windowStart = 0 ∨ WINDOW_MS < now - c.windowStart
  · simp only [if_pos h]
    omega
  · simp only [if_neg h]
    push_neg at h
    exact h.1

/-- When the odds handler dispatches a fetch and the upstream call fails,
the handler answers 422 and returns the window-adjusted state otherwise
untouched. -/
theorem handleOdds_error_fetch {α : Type} (c : OddsCache α) (now : Nat)
    (live : Bool) (bk : String) (d : String)
    (hf : (handleOdds c now live bk (Except.error d)).2.2 = true) :
    handleOdds c now live bk (Except.error d) =
      ((withinWindow c now).1, OddsResponse.err422 d, true) := by
  unfold handleOdds at hf ⊢
  cases hodds : ((withinWindow c now).1).odds with
  | none => simp only [hodds, oddsFetch]
  | some r0 =>
      simp only [hodds] at hf ⊢
      by_cases h1 : now - ((withinWindow c now).1).oddsTs < CACHE_MS ∧
          ((withinWindow c now).1).live = live ∧
          ((withinWindow c now).1).bookmaker = bk
      · simp [h1] at hf
      · cases h2 : (withinWindow c now).2 with
        | true => simp [h1, h2] at hf
        | false => simp only [h1, h2, if_false, if_neg, oddsFetch,
            Bool.false_eq_true, ite_false]

/-- In any state where an empty odds cache implies an unused window flag, a
dispatched fetch finds the window flag down. -/
theorem handleOdds_error_not_used {α : Type} (c : OddsCache α) (now : Nat)
    (live : Bool) (bk : String) (d : String)
    (hreach : c.odds = none → c.windowUsed = false)
    (hf : (handleOdds c now live bk (Except.error d)).2.2 = true) :
    ((withinWindow c now).1).windowUsed = false := by
  unfold handleOdds at hf
  unfold withinWindow at hf ⊢
  by_cases h : c.windowStart = 0 ∨ WINDOW_MS < now - c.windowStart
  · simp [h]
  · simp only [if_neg h] at hf ⊢
    cases hodds : c.odds with
    | none => exact hreach hodds
    | some r0 =>
        rw [hodds] at hf
        by_cases h1 : now - c.oddsTs < CACHE_MS ∧ c.live = live ∧
            c.bookmaker = bk
        · simp [h1] at hf
        · cases h2 : c.windowUsed with
          | false => rfl
          | true => simp [h1, h2] at hf

/-! ## Claim C1 -/

/-- C1 counterexample: starting from the initial cache, a request at time
1000 is granted a fetch whose upstream call fails; the state after it has
windowUsed still false (so the gate did NOT mark the window used when it
granted permission), and a second request 1000 ms later, well within the
same window, dispatches a second upstream fetch.  This falsifies the claim
that at most one upstream fetch is dispatched within one window duration
after a granted fetch. -/
theorem two_fetches_in_one_window_cex :
    (handleOdds (oddsCache0 Nat) 1000 true "draftkings"
      (Except.error "upstream 500")).2.2 = true ∧
    (handleOdds (oddsCache0 Nat) 1000 true "draftkings"
      (Except.error "upstream 500")).1.windowUsed = false ∧
    (handleOdds (handleOdds (oddsCache0 Nat) 1000 true "draftkings"
      (Except.error "upstream 500")).1 2000 true "draftkings"
      (Except.error "upstream 500")).2.2 = true ∧
    2000 - 1000 ≤ WINDOW_MS := by decide

/-- C1 (amended): once a granted fetch for the odds resource completes
SUCCESSFULLY, the window flag is set (upon successful completion, not at the
moment permission is granted), and every later request arriving while the
stored window has not expired is served from cache and dispatches no
further upstream fetch, regardless of its TTL freshness or parameters. -/
theorem at_most_one_successful_fetch_per_window {α : Type} (c : OddsCache α)
    (now now' : Nat) (live live' : Bool) (bk bk' : String) (rows : α)
    (u : Except String α) (hn : 0 < now)
    (hf : (handleOdds c now live bk (Except.ok rows)).2.2 = true)
    (hw : now' - (handleOdds c now live bk (Except.ok rows)).1.windowStart ≤
      WINDOW_MS) :
    (handleOdds c now live bk (Except.ok rows)).1.windowUsed = true ∧
    (handleOdds (handleOdds c now live bk (Except.ok rows)).1 now' live' bk'
      u).2.2 = false := by
  have hstate := handleOdds_ok_fetch c now live bk rows hf
  constructor
  · rw [hstate]
  · rw [hstate]
    rw [handleOdds_noFetch_of_used
      ({ (withinWindow c now).1 with
          odds := some rows
          oddsTs := now
          live := live
          bookmaker := bk
          windowUsed := true })
      now' live' bk' u rows
      (withinWindow_start_ne_zero c now hn)
      (by rw [hstate] at hw; exact hw) rfl rfl]

/-- Witness for the amended C1 theorem at a concrete run. -/
theorem at_most_one_successful_fetch_per_window_witness :
    (handleOdds (oddsCache0 Nat) 100 true "draftkings"
      (Except.ok 7)).1.windowUsed = true ∧
    (handleOdds (handleOdds (oddsCache0 Nat) 100 true "draftkings"
      (Except.ok 7)).1 200 false "fanduel" (Except.error "e")).2.2 = false :=
  at_most_one_successful_fetch_per_window (oddsCache0 Nat) 100 200 true false
    "draftkings" "fanduel" 7 (Except.error "e") (by decide) (by decide)
    (by decide)

/-! ## Claim C2 -/

/-- C2 counterexample: a request granted a fetch whose upstream call fails
leaves windowUsed false, falsifying the claim that a failed fetch still
consumes the window attempt; a follow-up request in the same window indeed
fetches again. -/
theorem failed_fetch_leaves_window_open_cex :
    (handleOdds (oddsCache0 Nat) 500 true "draftkings"
      (Except.error "HTTP 401")).2.2 = true ∧
    (handleOdds (oddsCache0 Nat) 500 true "draftkings"
      (Except.error "HTTP 401")).1.windowUsed = false ∧
    (handleOdds (handleOdds (oddsCache0 Nat) 500 true "draftkings"
      (Except.error "HTTP 401")).1 600 true "draftkings"
      (Except.error "HTTP 401")).2.2 = true := by decide

/-- C2 (amended): windowUsed is written only by a SUCCESSFUL fetch.  In any
state where an empty odds cache implies an unused window flag, a request
granted a fetch whose upstream call fails gets the 422 error body and leaves
windowUsed false, so the window attempt is not consumed; a granted fetch
that succeeds sets windowUsed. -/
theorem windowUsed_only_on_successful_fetch {α : Type} (c : OddsCache α)
    (now : Nat) (live : Bool) (bk : String) (d : String) (rows : α)
    (hreach : c.odds = none → c.windowUsed = false)
    (hf : (handleOdds c now live bk (Except.error d)).2.2 = true) :
    (handleOdds c now live bk (Except.error d)).1.windowUsed = false ∧
    (handleOdds c now live bk (Except.error d)).2.1 = OddsResponse.err422 d ∧
    ((handleOdds c now live bk (Except.ok rows)).2.2 = true →
      (handleOdds c now live bk (Except.ok rows)).1.windowUsed = true) := by
  have hstate := handleOdds_error_fetch c now live bk d hf
  refine ⟨?_, ?_, ?_⟩
  · rw [hstate]
    exact handleOdds_error_not_used c now live bk d hreach hf
  · rw [hstate]
  · intro hok
    rw [handleOdds_ok_fetch c now live bk rows hok]

/-- Witness for the amended C2 theorem at a concrete run. -/
theorem windowUsed_only_on_successful_fetch_witness :
    (handleOdds (oddsCache0 Nat) 300 true "draftkings"
      (Except.error "HTTP 502")).1.windowUsed = false ∧
    (handleOdds (oddsCache0 Nat) 300 true "draftkings"
      (Except.error "HTTP 502")).2.1 = OddsResponse.err422 "HTTP 502" ∧
    ((handleOdds (oddsCache0 Nat) 300 true "draftkings"
      (Except.ok 9)).2.2 = true →
      (handleOdds (oddsCache0 Nat) 300 true "draftkings"
        (Except.ok 9)).1.windowUsed = true) :=
  windowUsed_only_on_successful_fetch (oddsCache0 Nat) 300 true "draftkings"
    "HTTP 502" 9 (fun _ => rfl) (by decide)

/-! ## Claim C9 -/

/-- C9: when rows are cached under a different fingerprint, the window is
already used and has not expired, the odds handler serves the stale cached
rows with a success response and dispatches no second fetch, whatever the
upstream would have answered. -/
theorem stale_served_on_fingerprint_change {α : Type} (c : OddsCache α)
    (now : Nat) (live : Bool) (bk : String) (u : Except String α) (rows : α)
    (hodds : c.odds = some rows) (hws : c.windowStart ≠ 0)
    (hin : now - c.windowStart ≤ WINDOW_MS) (hused : c.windowUsed = true)
    (_hdiff : c.live ≠ live ∨ c.bookmaker ≠ bk) :
    handleOdds c now live bk u = (c, OddsResponse.ok rows, false) :=
  handleOdds_noFetch_of_used c now live bk u rows hws hin hused hodds

/-- A concrete cache state with a consumed window and rows cached under the
draftkings fingerprint. -/
def staleStateC9 : OddsCache Nat :=
  { odds := some 42, oddsTs := 10, live := true, bookmaker := "draftkings",
    windowStart := 10, windowUsed := true }

/-- Witness for the C9 theorem: a bookmaker change after the window fetch is
consumed still gets the old rows. -/
theorem stale_served_on_fingerprint_change_witness :
    handleOdds staleStateC9 20 true "fanduel" (Except.error "never sent") =
      (staleStateC9, OddsResponse.ok 42, false) :=
  stale_served_on_fingerprint_change staleStateC9 20 true "fanduel" _ 42 rfl
    (by decide) (by decide) rfl (Or.inr (by decide))

/-! ## Claim C3 -/

/-- C3 counterexample: a raw game that starts in the future (commence at
1000, response time 500) and whose raw record carries completed true and
non-null scores produces a row whose live fields are nulled but whose
completed flag is TRUE, because line 267 of src/index.js copies the raw
completed flag outside the pre-tip guard.  The claim requires completed to
be false for such a game. -/
theorem pretip_completed_not_forced_cex :
    beforeTip
      ({ id := some "g1", home_team := some "Lakers",
         away_team := some "Celtics",
         scores := some [{ name := some "Lakers", score := some 10 },
                         { name := some "Celtics", score := some 12 }],
         commence_ms := some 1000, completed := true } : RawScoreGame)
      500 = true ∧
    extractTeamTotals
      ({ id := some "g1", home_team := some "Lakers",
         away_team := some "Celtics",
         scores := some [{ name := some "Lakers", score := some 10 },
                         { name := some "Celtics", score := some 12 }],
         commence_ms := some 1000, completed := true } : RawScoreGame) =
      (some 10, some 12) ∧
    (scoresRow
      ({ id := some "g1", home_team := some "Lakers",
         away_team := some "Celtics",
         scores := some [{ name := some "Lakers", score := some 10 },
                         { name := some "Celtics", score := some 12 }],
         commence_ms := some 1000, completed := true } : RawScoreGame)
      [] 500).completed = true := by decide

/-- C3 (amended): for a game whose commence time is strictly in the future
at response time, the returned row has null home score, away score, period
and clock even when the raw record carries values, but the completed flag is
copied from the raw record rather than forced to false. -/
theorem pretip_guard_nulls_live_fields (g : RawScoreGame)
    (espnMap : List (String × ClockEntry)) (now t : Nat)
    (hc : g.commence_ms = some t) (hlt : now < t) :
    (scoresRow g espnMap now).home_score = none ∧
    (scoresRow g espnMap now).away_score = none ∧
    (scoresRow g espnMap now).period = none ∧
    (scoresRow g espnMap now).clock = none ∧
    (scoresRow g espnMap now).completed = g.completed := by
  have hbt : beforeTip g now = true := by
    simp [beforeTip, hc, hlt]
  simp [scoresRow, hbt]

/-- Witness for the amended C3 theorem on a concrete future game. -/
theorem pretip_guard_nulls_live_fields_witness :
    (scoresRow
      ({ id := none, home_team := some "Lakers", away_team := some "Celtics",
         scores := some [{ name := some "Lakers", score := some 33 }],
         commence_ms := some 900, completed := true } : RawScoreGame)
      [] 100).home_score = none ∧
    (scoresRow
      ({ id := none, home_team := some "Lakers", away_team := some "Celtics",
         scores := some [{ name := some "Lakers", score := some 33 }],
         commence_ms := some 900, completed := true } : RawScoreGame)
      [] 100).away_score = none ∧
    (scoresRow
      ({ id := none, home_team := some "Lakers", away_team := some "Celtics",
         scores := some [{ name := some "Lakers", score := some 33 }],
         commence_ms := some 900, completed := true } : RawScoreGame)
      [] 100).period = none ∧
    (scoresRow
      ({ id := none, home_team := some "Lakers", away_team := some "Celtics",
         scores := some [{ name := some "Lakers", score := some 33 }],
         commence_ms := some 900, completed := true } : RawScoreGame)
      [] 100).clock = none ∧
    (scoresRow
      ({ id := none, home_team := some "Lakers", away_team := some "Celtics",
         scores := some [{ name := some "Lakers", score := some 33 }],
         commence_ms := some 900, completed := true } : RawScoreGame)
      [] 100).completed =
      ({ id := none, home_team := some "Lakers", away_team := some "Celtics",
         scores := some [{ name := some "Lakers", score := some 33 }],
         commence_ms := some 900, completed := true } : RawScoreGame).completed :=
  pretip_guard_nulls_live_fields _ [] 100 900 rfl (by decide)

/-! ## Claim C4 -/

/-- C4 counterexample: a raw game that carries BOTH explicit numeric score
fields (99 and 98) and a matching named-entry array (50 and 40).  The
documented strategy order says the explicit fields win; the part_000
extraction returns the array values, because lines 122-130 consult the
array first and the explicit fields only as a fallback.  No dash-delimited
combined-score strategy exists anywhere in the source. -/
theorem extraction_order_cex :
    (extract0
      ({ home_team := some "Lakers", away_team := some "Celtics",
         teams_home := none, teams_away := none,
         scores := some
           [{ name := some "Los Angeles Lakers", score := JNum.val 50 },
            { name := some "Boston Celtics", score := JNum.val 40 }],
         home_score_field := some (JNum.val 99),
         away_score_field := some (JNum.val 98) } : RawScoreGame0)).1 =
      some (JNum.val 50) ∧
    (extract0
      ({ home_team := some "Lakers", away_team := some "Celtics",
         teams_home := none, teams_away := none,
         scores := some
           [{ name := some "Los Angeles Lakers", score := JNum.val 50 },
            { name := some "Boston Celtics", score := JNum.val 40 }],
         home_score_field := some (JNum.val 99),
         away_score_field := some (JNum.val 98) } : RawScoreGame0)).1 ≠
      some (JNum.val 99) := by decide

/-- C4 (amended): score extraction has no dash-delimited strategy.  The
part_000 inline extraction consults the named-entry array (substring
containment of the normalized team name) FIRST; the explicit numeric fields
are only a fallback used when the array pass left the side null; and the
index.js extractTeamTotals consults only the named-entry array with
normalized-name equality, so a game without a scores array extracts null on
both sides, never zero. -/
theorem extraction_array_first_fields_fallback (g0 : RawScoreGame0)
    (g : RawScoreGame) (v : JNum)
    (hv : (arrayScores0 g0).1 = some v) (hns : g.scores = none) :
    (extract0 g0).1 = some v ∧
    ((arrayScores0 g0).2 = none → (extract0 g0).2 = g0.away_score_field) ∧
    ((arrayScores0 g0).1 = none → (extract0 g0).1 = g0.home_score_field) ∧
    extractTeamTotals g = (none, none) := by
  refine ⟨?_, ?_, ?_, ?_⟩
  · simp [extract0, hv]
  · intro h
    simp [extract0, h]
  · intro h
    simp [extract0, h]
  · simp [extractTeamTotals, hns]

/-- Witness for the amended C4 theorem on the concrete two-strategy game. -/
theorem extraction_array_first_fields_fallback_witness :
    (extract0
      ({ home_team := some "Lakers", away_team := some "Celtics",
         teams_home := none, teams_away := none,
         scores := some
           [{ name := some "Los Angeles Lakers", score := JNum.val 50 }],
         home_score_field := some (JNum.val 99),
         away_score_field := some (JNum.val 98) } : RawScoreGame0)).1 =
      some (JNum.val 50) ∧
    ((arrayScores0
      ({ home_team := some "Lakers", away_team := some "Celtics",
         teams_home := none, teams_away := none,
         scores := some
           [{ name := some "Los Angeles Lakers", score := JNum.val 50 }],
         home_score_field := some (JNum.val 99),
         away_score_field := some (JNum.val 98) } : RawScoreGame0)).2 = none →
      (extract0
      ({ home_team := some "Lakers", away_team := some "Celtics",
         teams_home := none, teams_away := none,
         scores := some
           [{ name := some "Los Angeles Lakers", score := JNum.val 50 }],
         home_score_field := some (JNum.val 99),
         away_score_field := some (JNum.val 98) } : RawScoreGame0)).2 =
      ({ home_team := some "Lakers", away_team := some "Celtics",
         teams_home := none, teams_away := none,
         scores := some
           [{ name := some "Los Angeles Lakers", score := JNum.val 50 }],
         home_score_field := some (JNum.val 99),
         away_score_field := some (JNum.val 98) } : RawScoreGame0).away_score_field) ∧
    ((arrayScores0
      ({ home_team := some "Lakers", away_team := some "Celtics",
         teams_home := none, teams_away := none,
         scores := some
           [{ name := some "Los Angeles Lakers", score := JNum.val 50 }],
         home_score_field := some (JNum.val 99),
         away_score_field := some (JNum.val 98) } : RawScoreGame0)).1 = none →
      (extract0
      ({ home_team := some "Lakers", away_team := some "Celtics",
         teams_home := none, teams_away := none,
         scores := some
           [{ name := some "Los Angeles Lakers", score := JNum.val 50 }],
         home_score_field := some (JNum.val 99),
         away_score_field := some (JNum.val 98) } : RawScoreGame0)).1 =
      ({ home_team := some "Lakers", away_team := some "Celtics",
         teams_home := none, teams_away := none,
         scores := some
           [{ name := some "Los Angeles Lakers", score := JNum.val 50 }],
         home_score_field := some (JNum.val 99),
         away_score_field := some (JNum.val 98) } : RawScoreGame0).home_score_field) ∧
    extractTeamTotals
      ({ id := none, home_team := some "A", away_team := some "B",
         scores := none, commence_ms := none, completed := false } :
        RawScoreGame) = (none, none) :=
  extraction_array_first_fields_fallback _ _ (JNum.val 50) (by decide) rfl

/-! ## Claim C5 -/

/-- C5 counterexample: parsePeriodClock has no Final branch, so the status
Final yields null period and null clock, not period 4 with clock 0:00; and
an unparsable status yields null period regardless of quarter sub-scores
(the function never receives them), not period 3. -/
theorem final_status_unparsed_cex :
    parsePeriodClock (some "Final") ≠
      ({ period := some 4, clock := some "0:00" } : PC) ∧
    parsePeriodClock (some "Final") = ({ period := none, clock := none } : PC) ∧
    parsePeriodClock (some "Delayed") ≠
      ({ period := some 3, clock := none } : PC) := by decide

/-- C5 (amended): parsePeriodClock maps the quarter status to period 2 and
clock 05:30, Halftime to period 3 and clock 12:00, and double overtime to
period 6 and clock 03:10 as claimed, but maps Final and every other
unparsable status to null period and null clock, consulting no quarter
sub-scores; the Final canonicalization to period 4 and clock 0:00 exists
only in the ESPN adapter, acting on the secondary provider's display
clock. -/
theorem clock_parser_mappings :
    parsePeriodClock (some "2nd Quarter - 05:30") =
      ({ period := some 2, clock := some "05:30" } : PC) ∧
    parsePeriodClock (some "Halftime") =
      ({ period := some 3, clock := some "12:00" } : PC) ∧
    parsePeriodClock (some "2OT - 03:10") =
      ({ period := some 6, clock := some "03:10" } : PC) ∧
    parsePeriodClock (some "Final") = ({ period := none, clock := none } : PC) ∧
    parsePeriodClock (some "Delayed") =
      ({ period := none, clock := none } : PC) ∧
    espnCanon none (some "Final") "in" =
      some ({ period := some 4, clock := some "0:00" } : ClockEntry) := by decide

/-! ## Claim C6 -/

/-- C6 counterexample: the End-of branch of parsePeriodClock adds one to the
quarter number WITHOUT capping at 4, so End of 4 infers period 5, while the
claim requires period 4. -/
theorem end_of_four_uncapped_cex :
    (parsePeriodClock (some "End of 4")).period = some 5 ∧
    (parsePeriodClock (some "End of 4")).period ≠ some 4 := by decide

/-- C6 (amended): for a status of the form End-of-N with N a single digit
from 1 to 9, parsePeriodClock infers period N plus one, with no cap (in
particular End of 4 infers period 5), and clock 12:00. -/
theorem end_of_marker_increments_period (n : Nat) (h1 : 1 ≤ n) (h9 : n ≤ 9) :
    parsePeriodClock (some (String.mk ("End of ".data ++ [Char.ofNat (48 + n)]))) =
      ({ period := some (n + 1), clock := some "12:00" } : PC) := by
  interval_cases n <;> decide

/-- Witness for the amended C6 theorem at the boundary input End of 4. -/
theorem end_of_marker_increments_period_witness :
    parsePeriodClock (some (String.mk ("End of ".data ++ [Char.ofNat 52]))) =
      ({ period := some 5, clock := some "12:00" } : PC) :=
  end_of_marker_increments_period 4 (by decide) (by decide)

/-! ## Claim C7 -/

/-- C7 counterexample: normTeam maps Los Angeles Lakers and LA Lakers to
different strings, so the merge keys built from the two providers' names for
the same game differ; the ESPN map holds a live entry under the short name
yet the scores row for the full-name game gets no period, i.e. the clock
merge FAILS for exactly the pair of display conventions the claim requires
to resolve to a non-conflicting key. -/
theorem lakers_merge_key_mismatch_cex :
    normTeam "Los Angeles Lakers" ≠ normTeam "LA Lakers" ∧
    (espnBuild [{ home := some "LA Lakers", away := some "Boston Celtics",
                  period0 := some 2, displayClock := some "7:14",
                  state := "in" }]).length = 1 ∧
    (espnBuild [{ home := some "LA Lakers", away := some "Boston Celtics",
                  period0 := some 2, displayClock := some "7:14",
                  state := "in" }]).lookup
      (mergeKey (some "Boston Celtics") (some "Los Angeles Lakers")) = none ∧
    (scoresRow
      ({ id := none, home_team := some "Los Angeles Lakers",
         away_team := some "Boston Celtics", scores := none,
         commence_ms := none, completed := false } : RawScoreGame)
      (espnBuild [{ home := some "LA Lakers", away := some "Boston Celtics",
                    period0 := some 2, displayClock := some "7:14",
                    state := "in" }]) 100).period = none := by decide

/-- C7 (amended): normTeam is case-insensitive (two spellings with the same
lowercasing normalize identically) and strips punctuation (L.A. Lakers and
la lakers collide), and when the two providers' normalized name pairs
coincide the merge key matches and the row receives the ESPN period and
clock; but Los Angeles Lakers and LA Lakers normalize to DIFFERENT strings,
so for that pair of display conventions the merge keys conflict and the
clock merge fails. -/
theorem normTeam_insensitive_merge (s t : String) (g : RawScoreGame)
    (m : List (String × ClockEntry)) (now : Nat) (e : ClockEntry)
    (hcase : s.data.map Char.toLower = t.data.map Char.toLower)
    (hlk : m.lookup (mergeKey g.away_team g.home_team) = some e)
    (hbt : beforeTip g now = false) :
    normTeam s = normTeam t ∧
    normTeam "L.A. Lakers" = normTeam "la lakers" ∧
    normTeam "Los Angeles Lakers" ≠ normTeam "LA Lakers" ∧
    (scoresRow g m now).period = e.period ∧
    (scoresRow g m now).clock = e.clock := by
  refine ⟨?_, by decide, by decide, ?_, ?_⟩
  · unfold normTeam
    rw [hcase]
  · simp [scoresRow, hlk, hbt]
  · simp [scoresRow, hlk, hbt]

/-- Witness for the amended C7 theorem: a game whose providers agree on the
short name LA Lakers merges successfully. -/
theorem normTeam_insensitive_merge_witness :
    normTeam "CELTICS" = normTeam "celtics" ∧
    normTeam "L.A. Lakers" = normTeam "la lakers" ∧
    normTeam "Los Angeles Lakers" ≠ normTeam "LA Lakers" ∧
    (scoresRow
      ({ id := none, home_team := some "LA Lakers",
         away_team := some "Boston Celtics", scores := none,
         commence_ms := none, completed := false } : RawScoreGame)
      (espnBuild [{ home := some "LA Lakers", away := some "Boston Celtics",
                    period0 := some 2, displayClock := some "7:14",
                    state := "in" }]) 100).period =
      ({ period := some 2, clock := some "7:14" } : ClockEntry).period ∧
    (scoresRow
      ({ id := none, home_team := some "LA Lakers",
         away_team := some "Boston Celtics", scores := none,
         commence_ms := none, completed := false } : RawScoreGame)
      (espnBuild [{ home := some "LA Lakers", away := some "Boston Celtics",
                    period0 := some 2, displayClock := some "7:14",
                    state := "in" }]) 100).clock =
      ({ period := some 2, clock := some "7:14" } : ClockEntry).clock :=
  normTeam_insensitive_merge "CELTICS" "celtics" _ _ 100
    ({ period := some 2, clock := some "7:14" } : ClockEntry)
    (by decide) (by decide) rfl

/-! ## Claim C8 -/

/-- Closed form of the history buffer: after any sequence of appends the
stored series is the suffix of the appended points that drops everything
beyond capacity from the oldest end. -/
theorem runHistory_eq_drop (ops : List HistoryPoint) :
    runHistory ops = ops.drop (ops.length - 2000) := by
  induction ops using List.reverseRecOn with
  | nil => rfl
  | append_singleton l a ih =>
      have hstep : runHistory (l ++ [a]) = pushPoint (runHistory l) a := by
        unfold runHistory
        rw [List.foldl_append]
        rfl
      rw [hstep, ih]
      unfold pushPoint
      by_cases h : l.length < 2000
      · have h0 : l.length - 2000 = 0 := by omega
        have h0' : (l ++ [a]).length - 2000 = 0 := by
          simp only [List.length_append, List.length_singleton]
          omega
        rw [h0, List.drop_zero, h0', List.drop_zero]
        have hlen : ¬ 2000 < (l ++ [a]).length := by
          simp only [List.length_append, List.length_singleton]
          omega
        simp only [if_neg hlen]
      · push_neg at h
        have hdlen : (l.drop (l.length - 2000)).length = 2000 := by
          rw [List.length_drop]
          omega
        have hcap : 2000 < (l.drop (l.length - 2000) ++ [a]).length := by
          simp only [List.length_append, List.length_singleton, hdlen]
          omega
        rw [if_pos hcap]
        have hne : l.drop (l.length - 2000) ≠ [] := by
          intro hcontra
          rw [hcontra] at hdlen
          simp at hdlen
        have htail : (l.drop (l.length - 2000) ++ [a]).tail =
            (l.drop (l.length - 2000)).tail ++ [a] := by
          cases hd : l.drop (l.length - 2000) with
          | nil => exact absurd hd hne
          | cons x xs => simp
        rw [htail, List.tail_drop]
        have harith : (l ++ [a]).length - 2000 = (l.length - 2000) + 1 := by
          simp only [List.length_append, List.length_singleton]
          omega
        have hdrop : (l ++ [a]).drop ((l.length - 2000) + 1) =
            l.drop ((l.length - 2000) + 1) ++ [a] :=
          List.drop_append_of_le_length (by omega)
        rw [harith, hdrop]

/-- C8: for every append sequence with non-decreasing timestamps (each
append stamps the current clock), the stored series never exceeds 2000
points, stays sorted by timestamp, always equals the capacity suffix of the
appended points, and after exactly 2001 appends equals the appends minus
the first point, i.e. the oldest point has been evicted and cannot appear
in any subsequent query of the series. -/
theorem history_bounded_sorted_fifo (ops : List HistoryPoint)
    (hmono : List.Pairwise (fun p q => p.ts ≤ q.ts) ops) :
    (runHistory ops).length ≤ 2000 ∧
    List.Pairwise (fun p q => p.ts ≤ q.ts) (runHistory ops) ∧
    runHistory ops = ops.drop (ops.length - 2000) ∧
    (ops.length = 2001 → runHistory ops = ops.tail) := by
  have hd := runHistory_eq_drop ops
  refine ⟨?_, ?_, hd, ?_⟩
  · rw [hd, List.length_drop]
    omega
  · rw [hd]
    exact List.Pairwise.sublist (List.drop_sublist _ _) hmono
  · intro h2001
    rw [hd, h2001, List.drop_one]

/-- Witness for the C8 theorem on a concrete two-point series. -/
theorem history_bounded_sorted_fifo_witness :
    (runHistory [{ ts := 1, y := 10 }, { ts := 2, y := 12 }]).length ≤ 2000 ∧
    List.Pairwise (fun p q => p.ts ≤ q.ts)
      (runHistory [{ ts := 1, y := 10 }, { ts := 2, y := 12 }]) ∧
    runHistory [{ ts := 1, y := 10 }, { ts := 2, y := 12 }] =
      ([{ ts := 1, y := 10 }, { ts := 2, y := 12 }] :
        List HistoryPoint).drop
        (([{ ts := 1, y := 10 }, { ts := 2, y := 12 }] :
          List HistoryPoint).length - 2000) ∧
    (([{ ts := 1, y := 10 }, { ts := 2, y := 12 }] :
        List HistoryPoint).length = 2001 →
      runHistory [{ ts := 1, y := 10 }, { ts := 2, y := 12 }] =
        ([{ ts := 1, y := 10 }, { ts := 2, y := 12 }] :
          List HistoryPoint).tail) :=
  history_bounded_sorted_fifo [{ ts := 1, y := 10 }, { ts := 2, y := 12 }]
    (by decide)

/-! ## Claim C10 -/

/-- C10: when the ESPN call fails (transport error, non-2xx status or decode
failure all land in the same catch block) and no fresh ESPN cache exists,
getEspnClockMap returns the empty map and caches it, and a scores request
whose primary upstream succeeded still completes with a success response in
which every row has null period and null clock. -/
theorem espn_failure_degrades_to_empty_map (st : ScoresState) (now : Nat)
    (data : List RawScoreGame)
    (hespn : st.espn = none ∨ ¬ now - st.espnTs < CACHE_MS)
    (hscores : st.scores = none ∨ ¬ now - st.scoresTs < CACHE_MS) :
    (getEspnClockMap st now EspnFetch.failure).2 = [] ∧
    (getEspnClockMap st now EspnFetch.failure).1.espn = some [] ∧
    (handleScores st now (Except.ok data) EspnFetch.failure).2 =
      ScoresResponse.ok (data.map (fun g => scoresRow g [] now)) ∧
    ∀ g ∈ data, (scoresRow g [] now).period = none ∧
      (scoresRow g [] now).clock = none := by
  have hmap : (getEspnClockMap st now EspnFetch.failure).2 = [] := by
    unfold getEspnClockMap
    cases hsp : st.espn with
    | none => rfl
    | some m =>
        rcases hespn with h | h
        · rw [hsp] at h
          exact Option.noConfusion h
        · simp only [if_neg h]
  have hcache : (getEspnClockMap st now EspnFetch.failure).1.espn = some [] := by
    unfold getEspnClockMap
    cases hsp : st.espn with
    | none => rfl
    | some m =>
        rcases hespn with h | h
        · rw [hsp] at h
          exact Option.noConfusion h
        · simp only [if_neg h]
  have hfetch : (scoresFetch st now (Except.ok data) EspnFetch.failure).2 =
      ScoresResponse.ok (data.map (fun g => scoresRow g [] now)) := by
    unfold scoresFetch
    rw [hmap]
  refine ⟨hmap, hcache, ?_, ?_⟩
  · unfold handleScores
    cases hsc : st.scores with
    | none => exact hfetch
    | some rows =>
        rcases hscores with h | h
        · rw [hsc] at h
          exact Option.noConfusion h
        · simp only [if_neg h]
          exact hfetch
  · intro g _
    constructor <;> simp [scoresRow]

/-- A cold scores-path cache: nothing stored yet. -/
def coldScoresState : ScoresState :=
  { scores := none, scoresTs := 0, espn := none, espnTs := 0 }

/-- A concrete raw game used by the C10 witness. -/
def gameC10 : RawScoreGame :=
  { id := some "g2", home_team := some "Lakers", away_team := some "Celtics",
    scores := none, commence_ms := some 1, completed := false }

/-- Witness for the C10 theorem on a concrete cold-cache state. -/
theorem espn_failure_degrades_to_empty_map_witness :
    (getEspnClockMap coldScoresState 5 EspnFetch.failure).2 = [] ∧
    (getEspnClockMap coldScoresState 5 EspnFetch.failure).1.espn = some [] ∧
    (handleScores coldScoresState 5 (Except.ok [gameC10])
      EspnFetch.failure).2 =
      ScoresResponse.ok ([gameC10].map (fun g => scoresRow g [] 5)) ∧
    ∀ g ∈ [gameC10],
      (scoresRow g [] 5).period = none ∧ (scoresRow g [] 5).clock = none :=
  espn_failure_degrades_to_empty_map coldScoresState 5 [gameC10]
    (Or.inl rfl) (Or.inl rfl)

end NbaDash
